import Mathlib

/-!
Verification development for the opentopodata query-parsing pipeline
(`opentopodata/api.py`).

Strings are embedded as `List Char` (Python `str`), numeric values as `ℚ`
(exact rationals standing in for Python floats: every concrete value the
bounds checks compare here is exactly representable and the comparisons
agree with IEEE doubles on the decimal literals involved), and raised
exceptions as an `Except` error channel carrying a `ClientError` value
whose rendered message (`errMsg`) reproduces the Python message text.
-/

namespace OpenTopoData

/-- `DEFAULT_INTERPOLATION_METHOD` from api.py. -/
def DEFAULT_INTERPOLATION_METHOD : String := "bilinear"

/-- `LAT_MIN` from api.py. -/
def LAT_MIN : Int := -90

/-- `LAT_MAX` from api.py. -/
def LAT_MAX : Int := 90

/-- `LON_MIN` from api.py. -/
def LON_MIN : Int := -180

/-- `LON_MAX` from api.py. -/
def LON_MAX : Int := 180

/-- The single Python exception class `ClientError` is raised at several
distinct sites with distinct messages; each raise site becomes one
constructor, and `errMsg` rebuilds the exact message string. -/
inductive ClientError where
  | emptyInput : ClientError
  | polylineDecode : ClientError
  | tooMany (n maxN : Nat) : ClientError
  | segmentNoComma (seg : List Char) (pos : Nat) : ClientError
  | segmentNotNumeric (seg : List Char) (pos : Nat) : ClientError
  | outOfRangeLat (seg : List Char) (pos : Nat) : ClientError
  | outOfRangeLon (seg : List Char) (pos : Nat) : ClientError
  | unsupportedMethod (method : String) (methods : List String) : ClientError
  | datasetNotFound (name : String) : ClientError
  deriving DecidableEq, Repr

/-- Shared first sentence of every per-segment error message:
`f"Unable to parse location '{loc}' in position {i+1}."`. -/
def baseMsg (seg : List Char) (pos : Nat) : String :=
  "Unable to parse location '" ++ String.mk seg ++ "' in position "
    ++ toString pos ++ "."

/-- `f" Latitude must be between {LAT_MIN} and {LAT_MAX}."`. -/
def latBoundsMsg : String :=
  " Latitude must be between " ++ toString LAT_MIN ++ " and "
    ++ toString LAT_MAX ++ "."

/-- `f" Longitude must be between {LON_MIN} and {LON_MAX}."`. -/
def lonBoundsMsg : String :=
  " Longitude must be between " ++ toString LON_MIN ++ " and "
    ++ toString LON_MAX ++ "."

/-- `" Provide locations in lat,lon order."` — appended only in the
latitude branch of the bounds check. -/
def LATLON_HINT : String := " Provide locations in lat,lon order."

/-- The exact message text each raise site of api.py attaches to its
`ClientError`. -/
def errMsg : ClientError → String
  | .emptyInput =>
      "No locations provided."
        ++ " Add locations in a query string: ?locations=lat1,lon1|lat2,lon2."
  | .polylineDecode => "Unable to parse locations as polyline."
  | .tooMany n maxN =>
      "Too many locations provided (" ++ toString n ++ "), the limit is "
        ++ toString maxN ++ "."
  | .segmentNoComma seg pos =>
      baseMsg seg pos ++ " Add locations like lat1,lon1|lat2,lon2."
  | .segmentNotNumeric seg pos => baseMsg seg pos
  | .outOfRangeLat seg pos => baseMsg seg pos ++ latBoundsMsg ++ LATLON_HINT
  | .outOfRangeLon seg pos => baseMsg seg pos ++ lonBoundsMsg
  | .unsupportedMethod method methods =>
      "Invalid interpolation method '" ++ method ++ "' not recognized."
        ++ " Valid interpolation methods: "
        ++ String.intercalate ", " methods ++ "."
  | .datasetNotFound name => "Dataset '" ++ name ++ "' not in config."

/-- Decimal value of a digit string, most significant first. -/
def digitsVal (l : List Char) : Nat :=
  l.foldl (fun a c => a * 10 + (c.toNat - 48)) 0

/-- Embedding of the Python builtin `float(s)` conversion on its decimal
forms: optional sign, integer digits, optional fractional digits after a
`.`, optional `e`/`E` exponent; at least one digit required; anything
else rejected.  (Exotic accepted spellings — surrounding whitespace,
`inf`/`nan`, digit underscores — are outside the inputs this model is
used on and are mapped to `none`.)  Returns the exact rational value. -/
def parseFloat (l : List Char) : Option ℚ :=
  let (sgn, l1) :=
    match l with
    | '-' :: r => ((-1 : ℚ), r)
    | '+' :: r => ((1 : ℚ), r)
    | r => ((1 : ℚ), r)
  let ip := l1.takeWhile Char.isDigit
  let l2 := l1.dropWhile Char.isDigit
  let (fp, l3) :=
    match l2 with
    | '.' :: r => (r.takeWhile Char.isDigit, r.dropWhile Char.isDigit)
    | r => (([] : List Char), r)
  if ip.isEmpty && fp.isEmpty then none
  else
    let mant : ℚ := (digitsVal ip : ℚ) + (digitsVal fp : ℚ) / ((10 : ℚ) ^ fp.length)
    match l3 with
    | [] => some (sgn * mant)
    | 'e' :: r =>
      let (eneg, r1) :=
        match r with
        | '-' :: r2 => (true, r2)
        | '+' :: r2 => (false, r2)
        | r2 => (false, r2)
      let ed := r1.takeWhile Char.isDigit
      let r2 := r1.dropWhile Char.isDigit
      if ed.isEmpty || !r2.isEmpty then none
      else if eneg then some (sgn * mant / ((10 : ℚ) ^ digitsVal ed))
      else some (sgn * mant * ((10 : ℚ) ^ digitsVal ed))
    | 'E' :: r =>
      let (eneg, r1) :=
        match r with
        | '-' :: r2 => (true, r2)
        | '+' :: r2 => (false, r2)
        | r2 => (false, r2)
      let ed := r1.takeWhile Char.isDigit
      let r2 := r1.dropWhile Char.isDigit
      if ed.isEmpty || !r2.isEmpty then none
      else if eneg then some (sgn * mant / ((10 : ℚ) ^ digitsVal ed))
      else some (sgn * mant * ((10 : ℚ) ^ digitsVal ed))
    | _ => none

/-- Python `s.strip(c)` for a single strip character: remove leading and
trailing occurrences of `c`. -/
def pyStrip (c : Char) (l : List Char) : List Char :=
  ((l.dropWhile (fun x => x == c)).reverse.dropWhile (fun x => x == c)).reverse

/-- Python `s.split(c)` for a one-character separator: splits on every
occurrence, keeping empty segments; the empty string yields `[""]`. -/
def splitOnChar (c : Char) : List Char → List (List Char)
  | [] => [[]]
  | x :: xs =>
    if x == c then [] :: splitOnChar c xs
    else
      match splitOnChar c xs with
      | [] => [[x]]
      | h :: t => (x :: h) :: t

/-- `locations.strip("|").split("|")` — the raw segment list of the
delimited-pairs parser (api.py line 174). -/
def segsOf (locations : List Char) : List (List Char) :=
  splitOnChar '|' (pyStrip '|' locations)

/-- `loc.split(",", 1)[0]`: the text before the first comma. -/
def latPart (seg : List Char) : List Char :=
  seg.takeWhile (fun c => c != ',')

/-- `loc.split(",", 1)[1]`: the text after the first comma. -/
def lonPart (seg : List Char) : List Char :=
  (seg.dropWhile (fun c => c != ',')).drop 1

/-- The body of the per-segment loop of `_parse_latlon_locations`
(api.py lines 183–214) for the 0-based segment index `i`: comma check,
split at the first comma, float conversion of both parts, then the
latitude and longitude bounds checks, in source order. -/
def parseSegment (i : Nat) (seg : List Char) : Except ClientError (ℚ × ℚ) :=
  if seg.contains ',' = false then .error (.segmentNoComma seg (i + 1))
  else
    match parseFloat (latPart seg), parseFloat (lonPart seg) with
    | some lat, some lon =>
      if ¬ ((LAT_MIN : ℚ) ≤ lat ∧ lat ≤ (LAT_MAX : ℚ)) then
        .error (.outOfRangeLat seg (i + 1))
      else if ¬ ((LON_MIN : ℚ) ≤ lon ∧ lon ≤ (LON_MAX : ℚ)) then
        .error (.outOfRangeLon seg (i + 1))
      else .ok (lat, lon)
    | _, _ => .error (.segmentNotNumeric seg (i + 1))

/-- The per-segment loop itself: segments processed left to right with a
running 0-based index `k`; the first failing segment's error aborts the
whole parse. -/
def parsePairs : List (List Char) → Nat → Except ClientError (List (ℚ × ℚ))
  | [], _ => .ok []
  | seg :: rest, k =>
    match parseSegment k seg with
    | .error e => .error e
    | .ok p =>
      match parsePairs rest (k + 1) with
      | .error e => .error e
      | .ok ps => .ok (p :: ps)

/-- `_parse_latlon_locations(locations, max_n_locations)`: strip and
split on `|`, reject on segment count, then parse each segment; returns
the parallel latitude and longitude lists. -/
def _parse_latlon_locations (locations : List Char) (maxN : Nat) :
    Except ClientError (List ℚ × List ℚ) :=
  if (segsOf locations).length > maxN then
    .error (.tooMany (segsOf locations).length maxN)
  else
    match parsePairs (segsOf locations) 0 with
    | .error e => .error e
    | .ok pts => .ok (pts.map Prod.fst, pts.map Prod.snd)

/-- `locations[4:]` applied when `locations.startswith("enc:")`
(api.py lines 135–136): at most one `enc:` prefix is removed. -/
def stripEnc (l : List Char) : List Char :=
  if l.take 4 = "enc:".toList then l.drop 4 else l

/-- One base-32 varint of the polyline encoding, least-significant chunk
first: chars carry `ord(c) - 63`, values `≥ 0x20` continue the number.
Characters outside the printable `63..126` alphabet, or a string ending
mid-number, are a decode failure. -/
def decodeUnsigned : List Char → Option (Nat × List Char)
  | [] => none
  | c :: rest =>
    let n := c.toNat
    if n < 63 || 126 < n then none
    else if n - 63 < 32 then some (n - 63, rest)
    else
      match decodeUnsigned rest with
      | none => none
      | some (v, rem) => some ((n - 63 - 32) + 32 * v, rem)

/-- Zig-zag decoding: `~(v >> 1)` when the low bit is set, else `v >> 1`. -/
def zigzag (v : Nat) : Int :=
  if v % 2 = 1 then -((v / 2 : Nat) : Int) - 1 else ((v / 2 : Nat) : Int)

/-- One signed delta of the polyline stream. -/
def decodeDelta (l : List Char) : Option (Int × List Char) :=
  match decodeUnsigned l with
  | none => none
  | some (v, rem) => some (zigzag v, rem)

/-- Decode loop: alternating latitude/longitude deltas accumulated into
running scaled coordinates.  The fuel argument is initialised to the
input length; every iteration consumes at least two characters, so it
never runs out. -/
def decodeAll : Nat → Int → Int → List Char → Option (List (Int × Int))
  | _, _, _, [] => some []
  | 0, _, _, _ :: _ => none
  | Nat.succ fuel, lat, lon, c :: rest =>
    match decodeDelta (c :: rest) with
    | none => none
    | some (dlat, rem1) =>
      match decodeDelta rem1 with
      | none => none
      | some (dlon, rem2) =>
        match decodeAll fuel (lat + dlat) (lon + dlon) rem2 with
        | none => none
        | some ps => some ((lat + dlat, lon + dlon) :: ps)

/-- Modelled from the spec: `polyline.decode` of the external `polyline`
library is not part of this repository; the spec describes it as the
standard Google encoded-polyline algorithm — signed values delta-encoded
as base-32 characters with 5 decimal digits of precision, zig-zag
encoded — with malformed character streams a decode failure.  Scaled
integer coordinates are divided by `10^5` exactly. -/
def polylineDecode (l : List Char) : Option (List (ℚ × ℚ)) :=
  match decodeAll l.length 0 0 l with
  | none => none
  | some ps => some (ps.map (fun p => ((p.1 : ℚ) / 100000, (p.2 : ℚ) / 100000)))

/-- `_parse_polyline_locations(locations, max_n_locations)` (api.py
lines 116–154): strip an optional `enc:` prefix, decode, and reject the
batch only when it exceeds the size limit. -/
def _parse_polyline_locations (locations : List Char) (maxN : Nat) :
    Except ClientError (List ℚ × List ℚ) :=
  match polylineDecode (stripEnc locations) with
  | none => .error .polylineDecode
  | some latlons =>
    if (latlons.map Prod.fst).length > maxN then
      .error (.tooMany (latlons.map Prod.fst).length maxN)
    else .ok (latlons.map Prod.fst, latlons.map Prod.snd)

/-- `_parse_locations(locations, max_n_locations)` (api.py lines
87–113).  `locations` is `request.args.get("locations")`, which is
absent (`none`) or a string; Python's `if not locations` treats both
`None` and the empty string as missing. -/
def _parse_locations (locations : Option (List Char)) (maxN : Nat) :
    Except ClientError (List ℚ × List ℚ) :=
  match locations with
  | none => .error .emptyInput
  | some l =>
    if l.isEmpty then .error .emptyInput
    else if l.contains ',' then _parse_latlon_locations l maxN
    else _parse_polyline_locations l maxN

/-- `_validate_interpolation(method)` (api.py lines 69–84), with the
supported-method registry as an explicit argument: modelled from the
spec, `backend.INTERPOLATION_METHODS` lives in the excluded backend and
is published as an ordered registry of method names. -/
def _validate_interpolation (methods : List String) (method : String) :
    Except ClientError String :=
  if method ∉ methods then .error (.unsupportedMethod method methods)
  else .ok method

/-- `request.args.get("interpolation", DEFAULT_INTERPOLATION_METHOD)`
(api.py line 273): the orchestrator substitutes the default exactly when
the parameter is absent. -/
def interpolationArg (arg : Option String) : String :=
  arg.getD DEFAULT_INTERPOLATION_METHOD

/-- Modelled from the spec: the exception kinds reaching the
`get_elevation` handler.  `ClientError` is raised in this file;
`backend.InputError` and `config.ConfigError` belong to the excluded
backend/config modules and per the spec are distinct structured error
classes; `other` stands for any uncategorized exception. -/
inductive PyExc where
  | clientError (msg : String) : PyExc
  | inputError (msg : String) : PyExc
  | configError (msg : String) : PyExc
  | other (msg : String) : PyExc
  deriving DecidableEq, Repr

/-- A rendered HTTP body: the success envelope with its
`(elevation, lat, lng)` results, or an error envelope with a status
string and message. -/
inductive ApiBody where
  | success (results : List (Option ℚ × ℚ × ℚ)) : ApiBody
  | failure (status : String) (error : String) : ApiBody
  deriving DecidableEq, Repr

/-- The masked message of the uncategorized-exception handler. -/
def SERVER_ERROR_MSG : String := "Server error, please retry request."

/-- The `try`/`except` tail of `get_elevation` (api.py lines 271–300):
given the outcome of the pipeline body — elevations zipped with the
parsed coordinates on success, or a raised exception — produce the
response body and HTTP status.  In debug mode an uncategorized exception
propagates (`.error`) instead of being masked. -/
def get_elevation_response (debug : Bool)
    (outcome : Except PyExc (List (Option ℚ) × List ℚ × List ℚ)) :
    Except PyExc (ApiBody × Nat) :=
  match outcome with
  | .ok (elevations, lats, lons) =>
    .ok (.success (elevations.zip (lats.zip lons)), 200)
  | .error (.clientError m) => .ok (.failure "INVALID_REQUEST" m, 400)
  | .error (.inputError m) => .ok (.failure "INVALID_REQUEST" m, 400)
  | .error (.configError m) => .ok (.failure "SERVER_ERROR" m, 500)
  | .error (.other m) =>
    if debug then .error (.other m)
    else .ok (.failure "SERVER_ERROR" SERVER_ERROR_MSG, 500)

/-- Boolean substring test, used to state what an error message does and
does not mention. -/
def containsSub (needle hay : List Char) : Bool :=
  hay.tails.any (fun t => needle.isPrefixOf t)

/-- A raw segment on which the per-segment loop succeeds: it has a
comma, both parts convert as floats, and both values are in bounds. -/
def validSeg (seg : List Char) : Prop :=
  seg.contains ',' = true ∧
  ∃ la lo : ℚ, parseFloat (latPart seg) = some la ∧
    parseFloat (lonPart seg) = some lo ∧
    (LAT_MIN : ℚ) ≤ la ∧ la ≤ (LAT_MAX : ℚ) ∧
    (LON_MIN : ℚ) ≤ lo ∧ lo ≤ (LON_MAX : ℚ)

/-- The point `p` is exactly the float-parsed value of the segment
`seg`, latitude from the text before its first comma and longitude from
the text after it. -/
def segPairR (seg : List Char) (p : ℚ × ℚ) : Prop :=
  parseFloat (latPart seg) = some p.1 ∧ parseFloat (lonPart seg) = some p.2

section Lemmas

/-- `splitOnChar` never returns an empty list of segments. -/
theorem splitOnChar_ne_nil (c : Char) (l : List Char) : splitOnChar c l ≠ [] := by
  induction l with
  | nil => simp [splitOnChar]
  | cons x xs ih =>
    unfold splitOnChar
    split
    · simp
    · cases h : splitOnChar c xs with
      | nil => exact absurd h ih
      | cons hd tl => simp

/-- `segsOf` never returns an empty segment list. -/
theorem segsOf_ne_nil (l : List Char) : segsOf l ≠ [] :=
  splitOnChar_ne_nil '|' (pyStrip '|' l)

/-- A successful segment parse, from its ingredients. -/
theorem parseSegment_ok (k : Nat) (seg : List Char) (la lo : ℚ)
    (hc : seg.contains ',' = true)
    (hla : parseFloat (latPart seg) = some la)
    (hlo : parseFloat (lonPart seg) = some lo)
    (h1 : (LAT_MIN : ℚ) ≤ la) (h2 : la ≤ (LAT_MAX : ℚ))
    (h3 : (LON_MIN : ℚ) ≤ lo) (h4 : lo ≤ (LON_MAX : ℚ)) :
    parseSegment k seg = .ok (la, lo) := by
  unfold parseSegment
  rw [hc, hla, hlo]
  simp only [Bool.true_eq_false, if_false]
  rw [if_neg (not_not_intro ⟨h1, h2⟩), if_neg (not_not_intro ⟨h3, h4⟩)]

/-- A segment without a comma fails with `segmentNoComma` at its
1-based position. -/
theorem parseSegment_noComma (k : Nat) (seg : List Char)
    (hc : seg.contains ',' = false) :
    parseSegment k seg = .error (.segmentNoComma seg (k + 1)) := by
  unfold parseSegment
  rw [hc, if_pos rfl]

/-- A segment whose parsed latitude is out of bounds fails with
`outOfRangeLat` at its 1-based position. -/
theorem parseSegment_latRange (k : Nat) (seg : List Char) (la lo : ℚ)
    (hc : seg.contains ',' = true)
    (hla : parseFloat (latPart seg) = some la)
    (hlo : parseFloat (lonPart seg) = some lo)
    (h : ¬ ((LAT_MIN : ℚ) ≤ la ∧ la ≤ (LAT_MAX : ℚ))) :
    parseSegment k seg = .error (.outOfRangeLat seg (k + 1)) := by
  unfold parseSegment
  rw [hc, hla, hlo]
  simp only [Bool.true_eq_false, if_false]
  rw [if_pos h]

/-- A segment with in-bounds latitude but out-of-bounds longitude fails
with `outOfRangeLon` at its 1-based position. -/
theorem parseSegment_lonRange (k : Nat) (seg : List Char) (la lo : ℚ)
    (hc : seg.contains ',' = true)
    (hla : parseFloat (latPart seg) = some la)
    (hlo : parseFloat (lonPart seg) = some lo)
    (hlat : (LAT_MIN : ℚ) ≤ la ∧ la ≤ (LAT_MAX : ℚ))
    (h : ¬ ((LON_MIN : ℚ) ≤ lo ∧ lo ≤ (LON_MAX : ℚ))) :
    parseSegment k seg = .error (.outOfRangeLon seg (k + 1)) := by
  unfold parseSegment
  rw [hc, hla, hlo]
  simp only [Bool.true_eq_false, if_false]
  rw [if_neg (not_not_intro hlat), if_pos h]

/-- The per-segment loop never raises the batch-size error. -/
theorem parseSegment_ne_tooMany (k : Nat) (seg : List Char) (n m : Nat) :
    parseSegment k seg ≠ .error (.tooMany n m) := by
  unfold parseSegment
  split
  · simp
  · split
    · split
      · simp
      · split
        · simp
        · simp
    · simp

/-- Neither does the whole segment loop. -/
theorem parsePairs_ne_tooMany (segs : List (List Char)) :
    ∀ k n m : Nat, parsePairs segs k ≠ .error (.tooMany n m) := by
  induction segs with
  | nil => intro k n m h; simp [parsePairs] at h
  | cons seg rest ih =>
    intro k n m h
    unfold parsePairs at h
    cases hs : parseSegment k seg with
    | error e =>
      rw [hs] at h
      injection h with h'
      exact parseSegment_ne_tooMany k seg n m (h' ▸ hs)
    | ok p =>
      rw [hs] at h
      cases hr : parsePairs rest (k + 1) with
      | error e =>
        rw [hr] at h
        injection h with h'
        exact ih (k + 1) n m (h' ▸ hr)
      | ok ps => rw [hr] at h; exact Except.noConfusion h

/-- A successful segment loop returns one point per segment. -/
theorem parsePairs_length (segs : List (List Char)) :
    ∀ (k : Nat) (pts : List (ℚ × ℚ)), parsePairs segs k = .ok pts →
      pts.length = segs.length := by
  induction segs with
  | nil =>
    intro k pts h
    simp only [parsePairs] at h
    injection h with h'
    rw [← h']
    rfl
  | cons seg rest ih =>
    intro k pts h
    unfold parsePairs at h
    cases hs : parseSegment k seg with
    | error e => rw [hs] at h; exact absurd h (by simp)
    | ok p =>
      rw [hs] at h
      cases hr : parsePairs rest (k + 1) with
      | error e => rw [hr] at h; exact absurd h (by simp)
      | ok ps =>
        rw [hr] at h
        injection h with h'
        rw [← h']
        simp [ih (k + 1) ps hr]

/-- When every segment is valid, the loop succeeds and returns exactly
the float-parsed value of each segment, in order. -/
theorem parsePairs_of_valid (segs : List (List Char)) :
    ∀ k : Nat, (∀ seg ∈ segs, validSeg seg) →
      ∃ pts, parsePairs segs k = .ok pts ∧ List.Forall₂ segPairR segs pts := by
  induction segs with
  | nil => exact fun k _ => ⟨[], rfl, List.Forall₂.nil⟩
  | cons seg rest ih =>
    intro k h
    obtain ⟨hc, la, lo, hla, hlo, h1, h2, h3, h4⟩ :=
      h seg (List.mem_cons_self seg rest)
    obtain ⟨pts, hp, hf⟩ := ih (k + 1) (fun s hs => h s (List.mem_cons_of_mem _ hs))
    refine ⟨(la, lo) :: pts, ?_, List.Forall₂.cons ⟨hla, hlo⟩ hf⟩
    unfold parsePairs
    rw [parseSegment_ok k seg la lo hc hla hlo h1 h2 h3 h4, hp]

/-- The loop surfaces the error of the first failing segment. -/
theorem parsePairs_error_first (segs : List (List Char)) :
    ∀ (k i : Nat) (hi : i < segs.length) (e : ClientError),
      (∀ j (hj : j < i), ∃ p,
        parseSegment (k + j) (segs.get ⟨j, Nat.lt_trans hj hi⟩) = .ok p) →
      parseSegment (k + i) (segs.get ⟨i, hi⟩) = .error e →
      parsePairs segs k = .error e := by
  induction segs with
  | nil => intro k i hi; exact absurd hi (by simp)
  | cons seg rest ih =>
    intro k i hi e hprev herr
    cases i with
    | zero =>
      unfold parsePairs
      have hk : parseSegment k seg = .error e := by
        simpa using herr
      rw [hk]
    | succ i' =>
      unfold parsePairs
      obtain ⟨p, hp⟩ := hprev 0 (Nat.succ_pos i')
      have hp' : parseSegment k seg = .ok p := by simpa using hp
      rw [hp']
      have hi' : i' < rest.length := by
        have := hi
        simp only [List.length_cons] at this
        omega
      have step : parsePairs rest (k + 1) = .error e := by
        apply ih (k + 1) i' hi' e
        · intro j hj
          obtain ⟨q, hq⟩ := hprev (j + 1) (Nat.succ_lt_succ hj)
          refine ⟨q, ?_⟩
          have harith : k + (j + 1) = (k + 1) + j := by omega
          rw [harith] at hq
          exact hq
        · have harith : k + (i' + 1) = (k + 1) + i' := by omega
          rw [harith] at herr
          exact herr
      rw [step]

/-- Size check passed, loop failed: the parse surfaces the loop error. -/
theorem parse_latlon_of_error (raw : List Char) (maxN : Nat) (e : ClientError)
    (h : (segsOf raw).length ≤ maxN)
    (he : parsePairs (segsOf raw) 0 = .error e) :
    _parse_latlon_locations raw maxN = .error e := by
  unfold _parse_latlon_locations
  rw [if_neg (by omega), he]

/-- Size check passed, loop succeeded: the parse returns the parallel
projections of the point list. -/
theorem parse_latlon_of_ok (raw : List Char) (maxN : Nat) (pts : List (ℚ × ℚ))
    (h : (segsOf raw).length ≤ maxN)
    (hp : parsePairs (segsOf raw) 0 = .ok pts) :
    _parse_latlon_locations raw maxN = .ok (pts.map Prod.fst, pts.map Prod.snd) := by
  unfold _parse_latlon_locations
  rw [if_neg (by omega), hp]

/-- Inversion of a successful delimited-pairs parse. -/
theorem parse_latlon_ok_inv (raw : List Char) (maxN : Nat) (lats lons : List ℚ)
    (h : _parse_latlon_locations raw maxN = .ok (lats, lons)) :
    (segsOf raw).length ≤ maxN ∧
      ∃ pts, parsePairs (segsOf raw) 0 = .ok pts ∧
        lats = pts.map Prod.fst ∧ lons = pts.map Prod.snd := by
  unfold _parse_latlon_locations at h
  split at h
  · exact absurd h (by simp)
  · rename_i hgt
    refine ⟨by omega, ?_⟩
    cases hp : parsePairs (segsOf raw) 0 with
    | error e => rw [hp] at h; exact absurd h (by simp)
    | ok pts =>
      rw [hp] at h
      injection h with h'
      injection h' with h1 h2
      exact ⟨pts, rfl, h1.symm, h2.symm⟩

/-- Inversion of a successful polyline parse. -/
theorem parse_polyline_ok_inv (raw : List Char) (maxN : Nat) (lats lons : List ℚ)
    (h : _parse_polyline_locations raw maxN = .ok (lats, lons)) :
    ∃ pts, polylineDecode (stripEnc raw) = some pts ∧ pts.length ≤ maxN ∧
      lats = pts.map Prod.fst ∧ lons = pts.map Prod.snd := by
  unfold _parse_polyline_locations at h
  cases hd : polylineDecode (stripEnc raw) with
  | none => rw [hd] at h; exact absurd h (by simp)
  | some pts =>
    rw [hd] at h
    split at h
    case some.h_1 hgt => exact Option.noConfusion hgt
    rename_i latlons hgt
    injection hgt with hgt'
    subst hgt'
    split at h
    · exact absurd h (by simp)
    · rename_i hgt2
      injection h with h'
      injection h' with h1 h2
      refine ⟨pts, rfl, ?_, h1.symm, h2.symm⟩
      simp only [List.length_map] at hgt2
      omega

/-- A decode loop succeeding with an empty point list consumed an empty
character stream. -/
theorem decodeAll_eq_nil (f : Nat) (lat lon : Int) (l : List Char)
    (h : decodeAll f lat lon l = some []) : l = [] := by
  cases l with
  | nil => rfl
  | cons c rest =>
    exfalso
    cases f with
    | zero => simp [decodeAll] at h
    | succ f' =>
      unfold decodeAll at h
      cases h1 : decodeDelta (c :: rest) with
      | none => rw [h1] at h; exact Option.noConfusion h
      | some v1 =>
        rw [h1] at h
        cases h2 : decodeDelta v1.2 with
        | none => simp [h2] at h
        | some v2 =>
          simp only [h2] at h
          cases h3 : decodeAll f' (lat + v1.1) (lon + v2.1) v2.2 with
          | none => simp [h3] at h
          | some ps => simp [h3] at h

/-- `polyline.decode` returns an empty coordinate list only for the
empty string. -/
theorem polylineDecode_eq_nil (l : List Char)
    (h : polylineDecode l = some []) : l = [] := by
  unfold polylineDecode at h
  cases hd : decodeAll l.length 0 0 l with
  | none => rw [hd] at h; exact Option.noConfusion h
  | some ps =>
    rw [hd] at h
    injection h with h'
    have hps : ps = [] := List.map_eq_nil_iff.mp h'
    exact decodeAll_eq_nil l.length 0 0 l (hps ▸ hd)

/-- Stripping the optional `enc:` prefix yields the empty string only
for the inputs `""` and `"enc:"`. -/
theorem stripEnc_eq_nil (l : List Char) (h : stripEnc l = []) :
    l = [] ∨ l = "enc:".toList := by
  unfold stripEnc at h
  split at h
  · rename_i hp
    right
    have hsplit := List.take_append_drop 4 l
    rw [hp, h, List.append_nil] at hsplit
    exact hsplit.symm
  · left; exact h

/-- `toList` distributes over string append. -/
theorem str_toList_append (a b : String) :
    (a ++ b).toList = a.toList ++ b.toList := by
  simp [String.toList, String.data_append]

/-- A string contains any of its suffixes as a substring. -/
theorem containsSub_suffix (needle xs : List Char) :
    containsSub needle (xs ++ needle) = true := by
  unfold containsSub
  rw [List.any_eq_true]
  exact ⟨needle, (List.mem_tails needle (xs ++ needle)).mpr
      (List.suffix_append xs needle),
    List.isPrefixOf_iff_prefix.mpr List.prefix_rfl⟩

/-- Evaluation helper: a positive decimal literal's parse result,
with the raw unfolding supplied as `h` and the arithmetic as `hq`. -/
theorem parseFloat_eval (l : List Char) (a b e : Nat) (q : ℚ)
    (h : parseFloat l =
      some ((1 : ℚ) * (((a : Nat) : ℚ) + ((b : Nat) : ℚ) / (10 : ℚ) ^ (e : Nat))))
    (hq : (((a : Nat) : ℚ) + ((b : Nat) : ℚ) / (10 : ℚ) ^ (e : Nat)) = q) :
    parseFloat l = some q := by
  rw [h, one_mul, hq]

/-- Evaluation helper: a negative decimal literal's parse result. -/
theorem parseFloat_eval_neg (l : List Char) (a b e : Nat) (q : ℚ)
    (h : parseFloat l =
      some ((-1 : ℚ) * (((a : Nat) : ℚ) + ((b : Nat) : ℚ) / (10 : ℚ) ^ (e : Nat))))
    (hq : -(((a : Nat) : ℚ) + ((b : Nat) : ℚ) / (10 : ℚ) ^ (e : Nat)) = q) :
    parseFloat l = some q := by
  rw [h, neg_one_mul, hq]

/-- A single-segment locations string that parses to one point. -/
theorem parse_single_ok (l : List Char) (maxN : Nat) (la lo : ℚ)
    (hne : l.isEmpty = false) (hc : l.contains ',' = true)
    (hsegs : segsOf l = [l]) (hmax : 1 ≤ maxN)
    (hr : parseSegment 0 l = .ok (la, lo)) :
    _parse_locations (some l) maxN = .ok ([la], [lo]) := by
  unfold _parse_locations
  dsimp only
  rw [hne, if_neg (by simp), hc, if_pos rfl]
  have hpp : parsePairs (segsOf l) 0 = .ok [(la, lo)] := by
    rw [hsegs]
    unfold parsePairs
    rw [hr]
    rfl
  have hres := parse_latlon_of_ok l maxN [(la, lo)]
    (by rw [hsegs]; simpa using hmax) hpp
  simpa using hres

/-- A single-segment locations string whose segment parse fails. -/
theorem parse_single_error (l : List Char) (maxN : Nat) (e : ClientError)
    (hne : l.isEmpty = false) (hc : l.contains ',' = true)
    (hsegs : segsOf l = [l]) (hmax : 1 ≤ maxN)
    (hr : parseSegment 0 l = .error e) :
    _parse_locations (some l) maxN = .error e := by
  unfold _parse_locations
  dsimp only
  rw [hne, if_neg (by simp), hc, if_pos rfl]
  have hpp : parsePairs (segsOf l) 0 = .error e := by
    rw [hsegs]
    unfold parsePairs
    rw [hr]
  exact parse_latlon_of_error l maxN e (by rw [hsegs]; simpa using hmax) hpp

end Lemmas

section Claims

/-- **C5** (confirmed).  Geographic bounds in the delimited-pairs path
are inclusive: latitudes `90.0` and `-90.0` and longitudes `180.0` and
`-180.0` are accepted, `90.0001` latitude and `180.1` longitude are
rejected, and `"200,50"` is rejected citing latitude (not longitude) as
the violated bound. -/
theorem claimC5_bounds_inclusive :
    _parse_locations (some ("90.0,0".toList)) 10 = .ok ([90], [0]) ∧
    _parse_locations (some ("-90.0,0".toList)) 10 = .ok ([-90], [0]) ∧
    _parse_locations (some ("0,180.0".toList)) 10 = .ok ([0], [180]) ∧
    _parse_locations (some ("0,-180.0".toList)) 10 = .ok ([0], [-180]) ∧
    _parse_locations (some ("90.0001,0".toList)) 10 =
      .error (.outOfRangeLat ("90.0001,0".toList) 1) ∧
    _parse_locations (some ("0,180.1".toList)) 10 =
      .error (.outOfRangeLon ("0,180.1".toList) 1) ∧
    _parse_locations (some ("200,50".toList)) 10 =
      .error (.outOfRangeLat ("200,50".toList) 1) ∧
    containsSub ("Latitude".toList)
      ((errMsg (.outOfRangeLat ("200,50".toList) 1)).toList) = true ∧
    containsSub ("Longitude".toList)
      ((errMsg (.outOfRangeLat ("200,50".toList) 1)).toList) = false ∧
    errMsg (.outOfRangeLat ("90.0001,0".toList) 1) =
      "Unable to parse location '90.0001,0' in position 1. Latitude must be between -90 and 90. Provide locations in lat,lon order." ∧
    errMsg (.outOfRangeLon ("0,180.1".toList) 1) =
      "Unable to parse location '0,180.1' in position 1. Longitude must be between -180 and 180." := by
  have hz : ∀ l : List Char, parseFloat l =
        some ((1 : ℚ) * (((0 : Nat) : ℚ) + ((0 : Nat) : ℚ) / (10 : ℚ) ^ (0 : Nat))) →
      parseFloat l = some 0 :=
    fun l h => parseFloat_eval l 0 0 0 0 h (by norm_num)
  refine ⟨?_, ?_, ?_, ?_, ?_, ?_, ?_, rfl, rfl, rfl, rfl⟩
  · exact parse_single_ok _ 10 90 0 rfl rfl rfl (by norm_num)
      (parseSegment_ok 0 _ 90 0 rfl
        (parseFloat_eval _ 90 0 1 90 rfl (by norm_num)) (hz _ rfl)
        (by norm_num [LAT_MIN]) (by norm_num [LAT_MAX])
        (by norm_num [LON_MIN]) (by norm_num [LON_MAX]))
  · exact parse_single_ok _ 10 (-90) 0 rfl rfl rfl (by norm_num)
      (parseSegment_ok 0 _ (-90) 0 rfl
        (parseFloat_eval_neg _ 90 0 1 (-90) rfl (by norm_num)) (hz _ rfl)
        (by norm_num [LAT_MIN]) (by norm_num [LAT_MAX])
        (by norm_num [LON_MIN]) (by norm_num [LON_MAX]))
  · exact parse_single_ok _ 10 0 180 rfl rfl rfl (by norm_num)
      (parseSegment_ok 0 _ 0 180 rfl (hz _ rfl)
        (parseFloat_eval _ 180 0 1 180 rfl (by norm_num))
        (by norm_num [LAT_MIN]) (by norm_num [LAT_MAX])
        (by norm_num [LON_MIN]) (by norm_num [LON_MAX]))
  · exact parse_single_ok _ 10 0 (-180) rfl rfl rfl (by norm_num)
      (parseSegment_ok 0 _ 0 (-180) rfl (hz _ rfl)
        (parseFloat_eval_neg _ 180 0 1 (-180) rfl (by norm_num))
        (by norm_num [LAT_MIN]) (by norm_num [LAT_MAX])
        (by norm_num [LON_MIN]) (by norm_num [LON_MAX]))
  · exact parse_single_error _ 10 _ rfl rfl rfl (by norm_num)
      (parseSegment_latRange 0 _ (900001 / 10000) 0 rfl
        (parseFloat_eval _ 90 1 4 (900001 / 10000) rfl (by norm_num)) (hz _ rfl)
        (by norm_num [LAT_MIN, LAT_MAX]))
  · exact parse_single_error _ 10 _ rfl rfl rfl (by norm_num)
      (parseSegment_lonRange 0 _ 0 (1801 / 10) rfl (hz _ rfl)
        (parseFloat_eval _ 180 1 1 (1801 / 10) rfl (by norm_num))
        (by norm_num [LAT_MIN, LAT_MAX])
        (by norm_num [LON_MIN, LON_MAX]))
  · exact parse_single_error _ 10 _ rfl rfl rfl (by norm_num)
      (parseSegment_latRange 0 _ 200 50 rfl
        (parseFloat_eval _ 200 0 0 200 rfl (by norm_num))
        (parseFloat_eval _ 50 0 0 50 rfl (by norm_num))
        (by norm_num [LAT_MIN, LAT_MAX]))

/-- **C7** (confirmed).  For every non-empty raw locations string the
parser dispatch is decided solely by the presence of a comma: with a
comma the delimited-pairs parser runs, otherwise the polyline parser. -/
theorem claimC7_dispatch (l : List Char) (maxN : Nat) (h : l ≠ []) :
    (l.contains ',' = true →
      _parse_locations (some l) maxN = _parse_latlon_locations l maxN) ∧
    (l.contains ',' = false →
      _parse_locations (some l) maxN = _parse_polyline_locations l maxN) := by
  have hemp : l.isEmpty = false := by
    cases l with
    | nil => exact absurd rfl h
    | cons a as => rfl
  constructor
  · intro hc
    unfold _parse_locations
    dsimp only
    rw [hemp, if_neg (by simp), hc, if_pos rfl]
  · intro hc
    unfold _parse_locations
    dsimp only
    rw [hemp, if_neg (by simp), hc, if_neg (by simp)]

/-- **C7** witness: a comma-bearing input takes the delimited path, a
comma-free input takes the polyline path. -/
theorem claimC7_dispatch_witness :
    _parse_locations (some ("1,2".toList)) 5 =
      _parse_latlon_locations ("1,2".toList) 5 ∧
    _parse_locations (some ("abc".toList)) 5 =
      _parse_polyline_locations ("abc".toList) 5 :=
  ⟨(claimC7_dispatch ("1,2".toList) 5 (by simp)).1 rfl,
   (claimC7_dispatch ("abc".toList) 5 (by simp)).2 rfl⟩

/-- **C8** (confirmed).  The orchestrator's error mapping: every
`ClientError` (with its specific message) and every backend
`InputError` yield HTTP 400 with status `INVALID_REQUEST`; a
`ConfigError` yields HTTP 500 with status `SERVER_ERROR` and its own
message; an uncategorized exception yields HTTP 500 with the fixed
generic retry message, independent of the exception's content — unless
debug mode is on, in which case it propagates unmasked. -/
theorem claimC8_error_mapping (debug : Bool) (m : String) (e : ClientError) :
    get_elevation_response debug (.error (.clientError (errMsg e))) =
      .ok (.failure "INVALID_REQUEST" (errMsg e), 400) ∧
    get_elevation_response debug (.error (.inputError m)) =
      .ok (.failure "INVALID_REQUEST" m, 400) ∧
    get_elevation_response debug (.error (.configError m)) =
      .ok (.failure "SERVER_ERROR" m, 500) ∧
    get_elevation_response false (.error (.other m)) =
      .ok (.failure "SERVER_ERROR" SERVER_ERROR_MSG, 500) ∧
    get_elevation_response true (.error (.other m)) = .error (.other m) ∧
    (∀ m2 : String, get_elevation_response false (.error (.other m)) =
      get_elevation_response false (.error (.other m2))) :=
  ⟨rfl, rfl, rfl, rfl, rfl, fun _ => rfl⟩

/-- **C9** (confirmed).  The orchestrator substitutes the default
`"bilinear"` exactly when the interpolation parameter is absent, so the
validator always receives an explicit name; a name outside the method
registry fails with a message listing every supported name; a name in
the registry is returned unchanged. -/
theorem claimC9_interpolation (methods : List String) (arg : Option String) :
    (arg = none → interpolationArg arg = DEFAULT_INTERPOLATION_METHOD) ∧
    (∀ s, arg = some s → interpolationArg arg = s) ∧
    (∀ m, m ∉ methods →
      _validate_interpolation methods m = .error (.unsupportedMethod m methods) ∧
      errMsg (.unsupportedMethod m methods) =
        "Invalid interpolation method '" ++ m ++ "' not recognized."
          ++ " Valid interpolation methods: "
          ++ String.intercalate ", " methods ++ ".") ∧
    (∀ m, m ∈ methods → _validate_interpolation methods m = .ok m) := by
  refine ⟨?_, ?_, ?_, ?_⟩
  · intro h; subst h; rfl
  · intro s h; subst h; rfl
  · intro m hm
    unfold _validate_interpolation
    rw [if_pos hm]
    exact ⟨rfl, rfl⟩
  · intro m hm
    unfold _validate_interpolation
    rw [if_neg (not_not_intro hm)]

/-- **C9** witness at the registry `["nearest", "bilinear", "cubic"]`:
the absent parameter defaults to `"bilinear"`, `"spline"` is rejected,
`"bilinear"` is accepted. -/
theorem claimC9_interpolation_witness :
    interpolationArg none = "bilinear" ∧
    _validate_interpolation ["nearest", "bilinear", "cubic"] "spline" =
      .error (.unsupportedMethod "spline" ["nearest", "bilinear", "cubic"]) ∧
    _validate_interpolation ["nearest", "bilinear", "cubic"] "bilinear" =
      .ok "bilinear" :=
  ⟨(claimC9_interpolation [] none).1 rfl,
   ((claimC9_interpolation ["nearest", "bilinear", "cubic"] none).2.2.1
      "spline" (by decide)).1,
   (claimC9_interpolation ["nearest", "bilinear", "cubic"] none).2.2.2
      "bilinear" (by decide)⟩

/-- **C1** counterexample: the raw string `"enc:"` is non-empty and
comma-free, so it takes the polyline path, strips to the empty polyline
body, decodes to zero points, and parses successfully to an *empty*
batch — refuting the claimed `1 ≤ length` lower bound. -/
theorem claimC1_counterexample :
    _parse_locations (some ("enc:".toList)) 100 = .ok ([], []) := rfl

/-- **C1** amended: parsing either raises an error or returns a batch of
length at most `max_n`; an absent or empty raw string fails with the
empty-input error; and a successful batch can be empty only for the raw
string `"enc:"` (whose polyline body after prefix stripping is empty). -/
theorem claimC1_amended (raw : Option (List Char)) (maxN : Nat) :
    _parse_locations none maxN = .error .emptyInput ∧
    _parse_locations (some []) maxN = .error .emptyInput ∧
    (∀ lats lons, _parse_locations raw maxN = .ok (lats, lons) →
      lats.length ≤ maxN ∧ (lats = [] → raw = some ("enc:".toList))) := by
  refine ⟨rfl, rfl, ?_⟩
  intro lats lons h
  match raw with
  | none => exact absurd h (by simp [_parse_locations])
  | some l =>
    unfold _parse_locations at h
    dsimp only at h
    cases hemp : l.isEmpty with
    | true => rw [hemp] at h; simp at h
    | false =>
      rw [hemp, if_neg (by simp)] at h
      cases hc : l.contains ',' with
      | true =>
        rw [hc, if_pos rfl] at h
        obtain ⟨hle, pts, hp, hl1, hl2⟩ := parse_latlon_ok_inv l maxN lats lons h
        have hlen := parsePairs_length _ _ _ hp
        refine ⟨?_, ?_⟩
        · rw [hl1, List.length_map, hlen]; exact hle
        · intro hnil
          exfalso
          rw [hl1] at hnil
          have hpts : pts = [] := List.map_eq_nil_iff.mp hnil
          rw [hpts] at hlen
          exact segsOf_ne_nil l (List.length_eq_zero.mp hlen.symm)
      | false =>
        rw [hc, if_neg (by simp)] at h
        obtain ⟨pts, hd, hle, hl1, hl2⟩ := parse_polyline_ok_inv l maxN lats lons h
        refine ⟨?_, ?_⟩
        · rw [hl1, List.length_map]; exact hle
        · intro hnil
          rw [hl1] at hnil
          have hpts : pts = [] := List.map_eq_nil_iff.mp hnil
          rw [hpts] at hd
          have hstrip : stripEnc l = [] := polylineDecode_eq_nil _ hd
          rcases stripEnc_eq_nil l hstrip with h1 | h1
          · subst h1; simp at hemp
          · rw [h1]

/-- **C1** amended, witness: the empty-input error at an absent raw
string, and the `"enc:"` empty-batch case at `max_n = 5`. -/
theorem claimC1_amended_witness :
    _parse_locations none 5 = .error .emptyInput ∧
    ([] : List ℚ).length ≤ 5 ∧
    some ("enc:".toList) = some ("enc:".toList) :=
  ⟨(claimC1_amended none 5).1,
   ((claimC1_amended (some ("enc:".toList)) 5).2.2 [] [] rfl).1,
   ((claimC1_amended (some ("enc:".toList)) 5).2.2 [] [] rfl).2 rfl⟩

/-- **C2** counterexample: for `"10,200"` the longitude is out of range
and parsing fails with the longitude out-of-range error, but its message
contains no lat,lon-ordering hint (the hint is appended only in the
latitude branch), refuting the claim for longitude violations. -/
theorem claimC2_counterexample :
    _parse_locations (some ("10,200".toList)) 10 =
      .error (.outOfRangeLon ("10,200".toList) 1) ∧
    errMsg (.outOfRangeLon ("10,200".toList) 1) =
      "Unable to parse location '10,200' in position 1. Longitude must be between -180 and 180." ∧
    containsSub ("lat,lon".toList)
      ((errMsg (.outOfRangeLon ("10,200".toList) 1)).toList) = false := by
  refine ⟨?_, rfl, rfl⟩
  exact parse_single_error _ 10 _ rfl rfl rfl (by norm_num)
    (parseSegment_lonRange 0 _ 10 200 rfl
      (parseFloat_eval _ 10 0 0 10 rfl (by norm_num))
      (parseFloat_eval _ 200 0 0 200 rfl (by norm_num))
      (by norm_num [LAT_MIN, LAT_MAX])
      (by norm_num [LON_MIN, LON_MAX]))

/-- **C2** amended: at the first failing segment, an out-of-range
latitude yields the latitude out-of-range error naming the bound, the
1-based position, and the lat,lon-ordering hint; an in-range latitude
with out-of-range longitude yields the longitude error naming the bound
and position but *without* the ordering hint. -/
theorem claimC2_amended (raw : List Char) (maxN i : Nat) (la lo : ℚ)
    (hn : (segsOf raw).length ≤ maxN)
    (hi : i < (segsOf raw).length)
    (hprev : ∀ j (hj : j < i), ∃ p,
      parseSegment j ((segsOf raw).get ⟨j, Nat.lt_trans hj hi⟩) = .ok p)
    (hc : ((segsOf raw).get ⟨i, hi⟩).contains ',' = true)
    (hla : parseFloat (latPart ((segsOf raw).get ⟨i, hi⟩)) = some la)
    (hlo : parseFloat (lonPart ((segsOf raw).get ⟨i, hi⟩)) = some lo) :
    (¬ ((LAT_MIN : ℚ) ≤ la ∧ la ≤ (LAT_MAX : ℚ)) →
      _parse_latlon_locations raw maxN =
        .error (.outOfRangeLat ((segsOf raw).get ⟨i, hi⟩) (i + 1)) ∧
      errMsg (.outOfRangeLat ((segsOf raw).get ⟨i, hi⟩) (i + 1)) =
        baseMsg ((segsOf raw).get ⟨i, hi⟩) (i + 1) ++ latBoundsMsg ++ LATLON_HINT ∧
      containsSub LATLON_HINT.toList
        ((errMsg (.outOfRangeLat ((segsOf raw).get ⟨i, hi⟩) (i + 1))).toList)
        = true) ∧
    (((LAT_MIN : ℚ) ≤ la ∧ la ≤ (LAT_MAX : ℚ)) →
      ¬ ((LON_MIN : ℚ) ≤ lo ∧ lo ≤ (LON_MAX : ℚ)) →
      _parse_latlon_locations raw maxN =
        .error (.outOfRangeLon ((segsOf raw).get ⟨i, hi⟩) (i + 1)) ∧
      errMsg (.outOfRangeLon ((segsOf raw).get ⟨i, hi⟩) (i + 1)) =
        baseMsg ((segsOf raw).get ⟨i, hi⟩) (i + 1) ++ lonBoundsMsg) := by
  constructor
  · intro hout
    have herr := parseSegment_latRange i _ la lo hc hla hlo hout
    have hfirst := parsePairs_error_first (segsOf raw) 0 i hi
      (.outOfRangeLat ((segsOf raw).get ⟨i, hi⟩) (i + 1))
      (fun j hj => by simpa [Nat.zero_add] using hprev j hj)
      (by simpa [Nat.zero_add] using herr)
    refine ⟨parse_latlon_of_error raw maxN _ hn hfirst, rfl, ?_⟩
    show containsSub LATLON_HINT.toList
      ((baseMsg ((segsOf raw).get ⟨i, hi⟩) (i + 1) ++ latBoundsMsg
        ++ LATLON_HINT).toList) = true
    rw [str_toList_append]
    exact containsSub_suffix _ _
  · intro hin hout
    have herr := parseSegment_lonRange i _ la lo hc hla hlo hin hout
    have hfirst := parsePairs_error_first (segsOf raw) 0 i hi
      (.outOfRangeLon ((segsOf raw).get ⟨i, hi⟩) (i + 1))
      (fun j hj => by simpa [Nat.zero_add] using hprev j hj)
      (by simpa [Nat.zero_add] using herr)
    exact ⟨parse_latlon_of_error raw maxN _ hn hfirst, rfl⟩

/-- **C2** amended, witness: `"200,50"` produces the latitude error with
the ordering hint present; `"10,200"` produces the longitude error. -/
theorem claimC2_amended_witness :
    _parse_latlon_locations ("200,50".toList) 10 =
      .error (.outOfRangeLat ("200,50".toList) 1) ∧
    containsSub LATLON_HINT.toList
      ((errMsg (.outOfRangeLat ("200,50".toList) 1)).toList) = true ∧
    _parse_latlon_locations ("10,200".toList) 10 =
      .error (.outOfRangeLon ("10,200".toList) 1) := by
  have h1 := (claimC2_amended ("200,50".toList) 10 0 200 50 (by decide) (by decide)
      (fun j hj => absurd hj (Nat.not_lt_zero j)) rfl
      (parseFloat_eval _ 200 0 0 200 rfl (by norm_num))
      (parseFloat_eval _ 50 0 0 50 rfl (by norm_num))).1
      (by norm_num [LAT_MIN, LAT_MAX])
  have h2 := (claimC2_amended ("10,200".toList) 10 0 10 200 (by decide) (by decide)
      (fun j hj => absurd hj (Nat.not_lt_zero j)) rfl
      (parseFloat_eval _ 10 0 0 10 rfl (by norm_num))
      (parseFloat_eval _ 200 0 0 200 rfl (by norm_num))).2
      (by norm_num [LAT_MIN, LAT_MAX]) (by norm_num [LON_MIN, LON_MAX])
  exact ⟨h1.1, h1.2.2, h2.1⟩

/-- **C3** (confirmed).  The polyline parser strips exactly one optional
leading `enc:` prefix, maps any decode failure to the single positionless
`polylineDecode` error with its fixed message, and on success applies
only the size check — returning decoded coordinates unchanged with no
geographic range validation. -/
theorem claimC3_polyline (l : List Char) (maxN : Nat) :
    stripEnc ("enc:".toList ++ l) = l ∧
    (l.take 4 ≠ "enc:".toList → stripEnc l = l) ∧
    (polylineDecode (stripEnc l) = none →
      _parse_polyline_locations l maxN = .error .polylineDecode ∧
      errMsg .polylineDecode = "Unable to parse locations as polyline.") ∧
    (∀ pts, polylineDecode (stripEnc l) = some pts → pts.length ≤ maxN →
      _parse_polyline_locations l maxN = .ok (pts.map Prod.fst, pts.map Prod.snd)) := by
  refine ⟨?_, ?_, ?_, ?_⟩
  · unfold stripEnc
    rw [if_pos (show ("enc:".toList ++ l).take 4 = "enc:".toList from rfl)]
    rfl
  · intro h
    unfold stripEnc
    rw [if_neg h]
  · intro h
    unfold _parse_polyline_locations
    rw [h]
    exact ⟨rfl, rfl⟩
  · intro pts h hle
    unfold _parse_polyline_locations
    rw [h]
    dsimp only
    rw [if_neg (by simp only [List.length_map]; omega)]

/-- **C3** witness: `"a"` is a malformed polyline stream and fails with
the single decode error; `"_gjaR?"` decodes to the single point
`(100, 0)`, whose latitude exceeds `LAT_MAX`, yet is returned without
error. -/
theorem claimC3_polyline_witness :
    _parse_polyline_locations ("a".toList) 5 = .error .polylineDecode ∧
    _parse_polyline_locations ("_gjaR?".toList) 5 =
      .ok ([((10000000 : Int) : ℚ) / 100000], [((0 : Int) : ℚ) / 100000]) ∧
    (LAT_MAX : ℚ) < ((10000000 : Int) : ℚ) / 100000 := by
  refine ⟨((claimC3_polyline ("a".toList) 5).2.2.1 rfl).1, ?_,
    by norm_num [LAT_MAX]⟩
  exact (claimC3_polyline ("_gjaR?".toList) 5).2.2.2
    [(((10000000 : Int) : ℚ) / 100000, ((0 : Int) : ℚ) / 100000)]
    rfl (by norm_num)

/-- **C4** (confirmed).  In the delimited path the raw segment count is
checked before any per-segment parsing: more than `max_n` segments fail
with the too-many error regardless of segment contents, and at most
`max_n` segments can never produce that error.  In the polyline path a
decoded batch over the limit fails with the too-many error and a batch
at or under the limit passes the size check.  The message cites both the
count and the limit. -/
theorem claimC4_size_check (raw : List Char) (maxN : Nat) :
    ((segsOf raw).length > maxN →
      _parse_latlon_locations raw maxN =
        .error (.tooMany (segsOf raw).length maxN)) ∧
    ((segsOf raw).length ≤ maxN →
      ∀ n m : Nat, _parse_latlon_locations raw maxN ≠ .error (.tooMany n m)) ∧
    (∀ pts, polylineDecode (stripEnc raw) = some pts →
      (pts.length > maxN →
        _parse_polyline_locations raw maxN = .error (.tooMany pts.length maxN)) ∧
      (pts.length ≤ maxN →
        _parse_polyline_locations raw maxN =
          .ok (pts.map Prod.fst, pts.map Prod.snd))) ∧
    (∀ n m : Nat, errMsg (.tooMany n m) =
      "Too many locations provided (" ++ toString n ++ "), the limit is "
        ++ toString m ++ ".") := by
  refine ⟨?_, ?_, ?_, fun n m => rfl⟩
  · intro hgt
    unfold _parse_latlon_locations
    rw [if_pos hgt]
  · intro hle n m
    unfold _parse_latlon_locations
    rw [if_neg (by omega)]
    cases hp : parsePairs (segsOf raw) 0 with
    | error e =>
      dsimp only
      intro heq
      injection heq with h'
      exact parsePairs_ne_tooMany (segsOf raw) 0 n m (h' ▸ hp)
    | ok pts => dsimp only; simp
  · intro pts hd
    constructor
    · intro hgt
      unfold _parse_polyline_locations
      rw [hd]
      dsimp only
      rw [if_pos (by simpa [List.length_map] using hgt)]
      simp [List.length_map]
    · intro hle
      unfold _parse_polyline_locations
      rw [hd]
      dsimp only
      rw [if_neg (by simp only [List.length_map]; omega)]

/-- **C4** witness: two delimited segments against limit 1 fail as
too-many before segment parsing; one valid pair inside limit 5 never
yields too-many; a two-point polyline against limit 1 fails as too-many;
the message at count 2 and limit 1. -/
theorem claimC4_size_check_witness :
    _parse_latlon_locations ("1,2|3,4".toList) 1 = .error (.tooMany 2 1) ∧
    _parse_latlon_locations ("1,2".toList) 5 ≠ .error (.tooMany 1 5) ∧
    _parse_polyline_locations ("_p~iF~ps|U_ulLnnqC".toList) 1 =
      .error (.tooMany 2 1) ∧
    errMsg (.tooMany 2 1) = "Too many locations provided (2), the limit is 1." :=
  ⟨(claimC4_size_check ("1,2|3,4".toList) 1).1 (by decide),
   (claimC4_size_check ("1,2".toList) 5).2.1 (by decide) 1 5,
   ((claimC4_size_check ("_p~iF~ps|U_ulLnnqC".toList) 1).2.2.1
      [(((3850000 : Int) : ℚ) / 100000, ((-12020000 : Int) : ℚ) / 100000),
       (((4070000 : Int) : ℚ) / 100000, ((-12095000 : Int) : ℚ) / 100000)]
      rfl).1 (by decide),
   (claimC4_size_check [] 0).2.2.2 2 1⟩

/-- **C6** (confirmed).  A delimited input whose segments are all valid
parses to exactly one point per segment, in input order, each point
being the float-parsed value of its segment split at its first comma;
and the first segment lacking a comma (all earlier segments parsing)
fails with the segment-format error naming that segment's 1-based
position. -/
theorem claimC6_valid_delimited (raw : List Char) (maxN : Nat)
    (hn : (segsOf raw).length ≤ maxN) :
    ((∀ seg ∈ segsOf raw, validSeg seg) →
      ∃ pts : List (ℚ × ℚ),
        _parse_latlon_locations raw maxN =
          .ok (pts.map Prod.fst, pts.map Prod.snd) ∧
        pts.length = (segsOf raw).length ∧
        List.Forall₂ segPairR (segsOf raw) pts) ∧
    (∀ i (hi : i < (segsOf raw).length),
      (∀ j (hj : j < i), ∃ p,
        parseSegment j ((segsOf raw).get ⟨j, Nat.lt_trans hj hi⟩) = .ok p) →
      ((segsOf raw).get ⟨i, hi⟩).contains ',' = false →
      _parse_latlon_locations raw maxN =
        .error (.segmentNoComma ((segsOf raw).get ⟨i, hi⟩) (i + 1)) ∧
      errMsg (.segmentNoComma ((segsOf raw).get ⟨i, hi⟩) (i + 1)) =
        baseMsg ((segsOf raw).get ⟨i, hi⟩) (i + 1)
          ++ " Add locations like lat1,lon1|lat2,lon2.") := by
  constructor
  · intro hall
    obtain ⟨pts, hp, hf⟩ := parsePairs_of_valid (segsOf raw) 0 hall
    exact ⟨pts, parse_latlon_of_ok raw maxN pts hn hp,
      (List.Forall₂.length_eq hf).symm, hf⟩
  · intro i hi hprev hc
    have herr := parseSegment_noComma i _ hc
    have hfirst := parsePairs_error_first (segsOf raw) 0 i hi
      (.segmentNoComma ((segsOf raw).get ⟨i, hi⟩) (i + 1))
      (fun j hj => by simpa [Nat.zero_add] using hprev j hj)
      (by simpa [Nat.zero_add] using herr)
    exact ⟨parse_latlon_of_error raw maxN _ hn hfirst, rfl⟩

/-- **C6** witness: `"1,2|3,4"` parses to two points in order with the
float-parsed values; in `"5|1,2"` the first segment has no comma and the
parse fails citing position 1. -/
theorem claimC6_valid_delimited_witness :
    (∃ pts : List (ℚ × ℚ),
      _parse_latlon_locations ("1,2|3,4".toList) 5 =
        .ok (pts.map Prod.fst, pts.map Prod.snd) ∧
      pts.length = 2 ∧
      List.Forall₂ segPairR (segsOf ("1,2|3,4".toList)) pts) ∧
    _parse_latlon_locations ("5|1,2".toList) 5 =
      .error (.segmentNoComma ("5".toList) 1) := by
  constructor
  · have hv : ∀ seg ∈ segsOf ("1,2|3,4".toList), validSeg seg := by
      intro seg hs
      have hsegs : segsOf ("1,2|3,4".toList) = ["1,2".toList, "3,4".toList] := rfl
      rw [hsegs] at hs
      have : seg = "1,2".toList ∨ seg = "3,4".toList := by simpa using hs
      rcases this with h | h <;> subst h
      · exact ⟨rfl, 1, 2, parseFloat_eval _ 1 0 0 1 rfl (by norm_num),
          parseFloat_eval _ 2 0 0 2 rfl (by norm_num),
          by norm_num [LAT_MIN], by norm_num [LAT_MAX],
          by norm_num [LON_MIN], by norm_num [LON_MAX]⟩
      · exact ⟨rfl, 3, 4, parseFloat_eval _ 3 0 0 3 rfl (by norm_num),
          parseFloat_eval _ 4 0 0 4 rfl (by norm_num),
          by norm_num [LAT_MIN], by norm_num [LAT_MAX],
          by norm_num [LON_MIN], by norm_num [LON_MAX]⟩
    obtain ⟨pts, h1, h2, h3⟩ :=
      (claimC6_valid_delimited ("1,2|3,4".toList) 5 (by decide)).1 hv
    exact ⟨pts, h1, h2.trans rfl, h3⟩
  · exact ((claimC6_valid_delimited ("5|1,2".toList) 5 (by decide)).2 0 (by decide)
      (fun j hj => absurd hj (Nat.not_lt_zero j)) rfl).1

/-- **C10** (confirmed).  A successful parse — in either path — returns
latitude and longitude lists of equal length that are the parallel
projections of one list of points, so `lats[i]` and `lons[i]` originate
from the same input point. -/
theorem claimC10_parallel (raw : Option (List Char)) (maxN : Nat)
    (lats lons : List ℚ)
    (h : _parse_locations raw maxN = .ok (lats, lons)) :
    lats.length = lons.length ∧
    ∃ pts : List (ℚ × ℚ), lats = pts.map Prod.fst ∧ lons = pts.map Prod.snd := by
  match raw with
  | none => exact absurd h (by simp [_parse_locations])
  | some l =>
    unfold _parse_locations at h
    dsimp only at h
    cases hemp : l.isEmpty with
    | true => rw [hemp] at h; simp at h
    | false =>
      rw [hemp, if_neg (by simp)] at h
      cases hc : l.contains ',' with
      | true =>
        rw [hc, if_pos rfl] at h
        obtain ⟨hle, pts, hp, hl1, hl2⟩ := parse_latlon_ok_inv l maxN lats lons h
        exact ⟨by rw [hl1, hl2]; simp, pts, hl1, hl2⟩
      | false =>
        rw [hc, if_neg (by simp)] at h
        obtain ⟨pts, hd, hle, hl1, hl2⟩ := parse_polyline_ok_inv l maxN lats lons h
        exact ⟨by rw [hl1, hl2]; simp, pts, hl1, hl2⟩

/-- **C10** witness: `"1,2|3,4"` parses to `[1, 3]` / `[2, 4]`, which
are the projections of `[(1, 2), (3, 4)]`. -/
theorem claimC10_parallel_witness :
    [(1 : ℚ), 3].length = [(2 : ℚ), 4].length ∧
    ∃ pts : List (ℚ × ℚ), [(1 : ℚ), 3] = pts.map Prod.fst ∧
      [(2 : ℚ), 4] = pts.map Prod.snd := by
  have hs1 : parseSegment 0 ("1,2".toList) = .ok (1, 2) :=
    parseSegment_ok 0 _ 1 2 rfl
      (parseFloat_eval _ 1 0 0 1 rfl (by norm_num))
      (parseFloat_eval _ 2 0 0 2 rfl (by norm_num))
      (by norm_num [LAT_MIN]) (by norm_num [LAT_MAX])
      (by norm_num [LON_MIN]) (by norm_num [LON_MAX])
  have hs2 : parseSegment 1 ("3,4".toList) = .ok (3, 4) :=
    parseSegment_ok 1 _ 3 4 rfl
      (parseFloat_eval _ 3 0 0 3 rfl (by norm_num))
      (parseFloat_eval _ 4 0 0 4 rfl (by norm_num))
      (by norm_num [LAT_MIN]) (by norm_num [LAT_MAX])
      (by norm_num [LON_MIN]) (by norm_num [LON_MAX])
  have hpp : parsePairs (segsOf ("1,2|3,4".toList)) 0 = .ok [(1, 2), (3, 4)] := by
    have hsegs : segsOf ("1,2|3,4".toList) = ["1,2".toList, "3,4".toList] := rfl
    rw [hsegs]
    unfold parsePairs
    rw [hs1]
    have hrest : parsePairs ["3,4".toList] (0 + 1) = .ok [(3, 4)] := by
      unfold parsePairs
      rw [show parseSegment (0 + 1) ("3,4".toList) = .ok (3, 4) from hs2]
      rfl
    rw [hrest]
  have hfull : _parse_locations (some ("1,2|3,4".toList)) 5 =
      .ok ([(1 : ℚ), 3], [(2 : ℚ), 4]) :=
    parse_latlon_of_ok ("1,2|3,4".toList) 5 [(1, 2), (3, 4)] (by decide) hpp
  exact claimC10_parallel (some ("1,2|3,4".toList)) 5 [1, 3] [2, 4] hfull

end Claims

end OpenTopoData
